import Mathlib

/-!
Verification of the error-to-HTTP-response mapping layer of docs.rs
(`src/web/error.rs`): the `Nope` error enumeration, its status
resolution (`impl From<Nope> for IronError`), its rendering dispatch
(`impl Handler for Nope`), the query-parameter extraction used by the
`NoResults` arm, and the pool-error normalization
(`impl From<PoolError> for IronError`).
-/

set_option autoImplicit false

namespace DocsRs

/-- The relevant fragment of `iron::status::Status`: the two status values
this module produces, `Status::NotFound` and `Status::InternalServerError`. -/
inductive Status where
  | notFound
  | internalServerError
  deriving DecidableEq, Repr

/-- The numeric HTTP status code of a `Status` value. -/
def Status.code : Status → Nat
  | .notFound => 404
  | .internalServerError => 500

/-- The `Nope` enumeration from `src/web/error.rs`: a closed, payload-free
set of seven failure reasons. -/
inductive Nope where
  | ResourceNotFound
  | BuildNotFound
  | CrateNotFound
  | OwnerNotFound
  | VersionNotFound
  | NoResults
  | InternalServerError
  deriving DecidableEq, Repr, Fintype

/-- The fragment of `iron::IronError` relevant here: `IronError::new(err, status)`
retains the boxed error value and the chosen status. The payload type is a
parameter because two distinct error types are converted (`Nope`, `PoolError`). -/
structure IronError (ε : Type) where
  error : ε
  status : Status
  deriving DecidableEq, Repr

/-- Embedding of `impl From<Nope> for IronError` (`src/web/error.rs` lines 25-41):
an exhaustive match computes the status, then `IronError::new(err, status)`. -/
def Nope.intoIronError (err : Nope) : IronError Nope :=
  let status := match err with
    | .ResourceNotFound
    | .BuildNotFound
    | .CrateNotFound
    | .OwnerNotFound
    | .VersionNotFound
    | .NoResults => Status.notFound
    | .InternalServerError => Status.internalServerError
  { error := err, status := status }

/-- The request fragment used by this module: `req.url.as_ref().query_pairs()`
yields the ordered, already-percent-decoded (key, value) pairs of the URL's
query component. Path and fragment are carried to express that the module
never consults them. -/
structure Request where
  path : String := ""
  fragmentPart : Option String := none
  queryPairs : List (String × String) := []
  deriving DecidableEq, Repr

/-- Embedding of `params.find(|(key, _)| key == "query")` followed by taking
the value (spec name: `find_query`): the value of the first query-string pair
whose key is exactly `"query"`, or `none`. -/
def findQuery (pairs : List (String × String)) : Option String :=
  (pairs.find? (fun p => p.1 == "query")).map Prod.snd

/-- The `ErrorPage` template model (`src/web/page/templates.rs` collaborator,
fields exactly as constructed in `src/web/error.rs`): title, optional
message, status. -/
structure ErrorPage where
  title : String
  message : Option String
  status : Status
  deriving DecidableEq, Repr

/-- Modelled from the spec: the remaining fields of the `Search` page model
(`src/web/releases.rs`, not present in the sources) — the "normal
search-results shape" defaulted by `..Default::default()`. Represented by
its default-valued result list. -/
structure SearchRest where
  results : List String := []
  deriving DecidableEq, Repr

/-- The `Search` page model as constructed in `src/web/error.rs`: title,
optional search_query, status, and the defaulted remainder of the
search-results shape. -/
structure Search where
  title : String
  search_query : Option String := none
  status : Status
  rest : SearchRest := {}
  deriving DecidableEq, Repr

/-- The rendered page model handed to `into_response`: either the generic
error page template or the search-results page template. -/
inductive Response where
  | errorPage : ErrorPage → Response
  | searchPage : Search → Response
  deriving DecidableEq, Repr

/-- The status field carried by a rendered page model. -/
def Response.status : Response → Status
  | .errorPage p => p.status
  | .searchPage s => s.status

/-- Embedding of `impl Handler for Nope` (`src/web/error.rs` lines 44-127):
the exhaustive seven-arm rendering dispatch. -/
def Nope.handle (k : Nope) (req : Request) : Response :=
  match k with
  | .ResourceNotFound =>
      .errorPage
        { title := "The requested resource does not exist"
          message := some "no such resource"
          status := .notFound }
  | .BuildNotFound =>
      .errorPage
        { title := "The requested build does not exist"
          message := some "no such build"
          status := .notFound }
  | .CrateNotFound =>
      .errorPage
        { title := "The requested crate does not exist"
          message := some "no such crate"
          status := .notFound }
  | .OwnerNotFound =>
      .errorPage
        { title := "The requested owner does not exist"
          message := some "no such owner"
          status := .notFound }
  | .VersionNotFound =>
      .errorPage
        { title := "The requested version does not exist"
          message := some "no such version for this crate"
          status := .notFound }
  | .NoResults =>
      match findQuery req.queryPairs with
      | some q =>
          .searchPage
            { title := "No crates found matching \x27" ++ q ++ "\x27"
              search_query := some q
              status := .notFound }
      | none =>
          .searchPage
            { title := "No results given for empty search query"
              status := .notFound }
  | .InternalServerError =>
      .errorPage
        { title := "Internal server error"
          message := some "internal server error"
          status := .internalServerError }

/-- Modelled from the spec: the resource-pool failure type (`PoolError` in
`src/db`, not present in the sources) — a failure value treated as a
single piece of data, never inspected by this layer. -/
structure PoolError where
  detail : String
  deriving DecidableEq, Repr

/-- Embedding of `impl From<PoolError> for IronError` (`src/web/error.rs`
lines 129-133): `IronError::new(err, Status::InternalServerError)`. -/
def PoolError.intoIronError (err : PoolError) : IronError PoolError :=
  { error := err, status := .internalServerError }

end DocsRs

namespace DocsRs

/-- Claim C1: the status resolution maps the six not-found-class variants to
HTTP 404 and InternalServerError to HTTP 500, and no other status code is
ever produced by this mapping. -/
theorem statusResolver_table :
    Nope.ResourceNotFound.intoIronError.status.code = 404 ∧
    Nope.BuildNotFound.intoIronError.status.code = 404 ∧
    Nope.CrateNotFound.intoIronError.status.code = 404 ∧
    Nope.OwnerNotFound.intoIronError.status.code = 404 ∧
    Nope.VersionNotFound.intoIronError.status.code = 404 ∧
    Nope.NoResults.intoIronError.status.code = 404 ∧
    Nope.InternalServerError.intoIronError.status.code = 500 ∧
    ∀ k : Nope, k.intoIronError.status.code = 404 ∨ k.intoIronError.status.code = 500 := by
  refine ⟨rfl, rfl, rfl, rfl, rfl, rfl, rfl, ?_⟩
  intro k
  cases k <;> simp [Nope.intoIronError, Status.code]

/-- Claim C2: for every request, rendering each of the six non-NoResults
variants produces the generic error page with exactly the table's title,
message, and status. -/
theorem errorPage_render_table :
    ∀ req : Request,
      Nope.ResourceNotFound.handle req =
        .errorPage { title := "The requested resource does not exist",
                     message := some "no such resource", status := .notFound } ∧
      Nope.BuildNotFound.handle req =
        .errorPage { title := "The requested build does not exist",
                     message := some "no such build", status := .notFound } ∧
      Nope.CrateNotFound.handle req =
        .errorPage { title := "The requested crate does not exist",
                     message := some "no such crate", status := .notFound } ∧
      Nope.OwnerNotFound.handle req =
        .errorPage { title := "The requested owner does not exist",
                     message := some "no such owner", status := .notFound } ∧
      Nope.VersionNotFound.handle req =
        .errorPage { title := "The requested version does not exist",
                     message := some "no such version for this crate", status := .notFound } ∧
      Nope.InternalServerError.handle req =
        .errorPage { title := "Internal server error",
                     message := some "internal server error", status := .internalServerError } ∧
      (Nope.ResourceNotFound.handle req).status.code = 404 ∧
      (Nope.BuildNotFound.handle req).status.code = 404 ∧
      (Nope.CrateNotFound.handle req).status.code = 404 ∧
      (Nope.OwnerNotFound.handle req).status.code = 404 ∧
      (Nope.VersionNotFound.handle req).status.code = 404 ∧
      (Nope.InternalServerError.handle req).status.code = 500 := by
  intro req
  exact ⟨rfl, rfl, rfl, rfl, rfl, rfl, rfl, rfl, rfl, rfl, rfl, rfl⟩

/-- Claim C3: rendering NoResults uses the search-results page, with the
query-present branch producing title `No crates found matching <q>` (the
query value concatenated verbatim between apostrophes) and search_query set,
and the query-absent branch producing the empty-search title with
search_query unset; status 404 in both sub-cases. -/
theorem noResults_render_branches :
    ∀ req : Request,
      (∀ q : String, findQuery req.queryPairs = some q →
        Nope.NoResults.handle req =
          .searchPage { title := "No crates found matching \x27" ++ q ++ "\x27",
                        search_query := some q, status := .notFound, rest := {} }) ∧
      (findQuery req.queryPairs = none →
        Nope.NoResults.handle req =
          .searchPage { title := "No results given for empty search query",
                        search_query := none, status := .notFound, rest := {} }) := by
  intro req
  constructor
  · intro q h
    simp [Nope.handle, h]
  · intro h
    simp [Nope.handle, h]

/-- Witness for C3: both branches evaluated at concrete requests, one with
`?query=foobar` and one with no query parameter. -/
theorem noResults_render_branches_witness :
    Nope.NoResults.handle { queryPairs := [("query", "foobar")] } =
      .searchPage { title := "No crates found matching \x27foobar\x27",
                    search_query := some "foobar", status := .notFound, rest := {} } ∧
    Nope.NoResults.handle { path := "/search", queryPairs := [("q", "foobar")] } =
      .searchPage { title := "No results given for empty search query",
                    search_query := none, status := .notFound, rest := {} } :=
  ⟨(noResults_render_branches { queryPairs := [("query", "foobar")] }).1 "foobar" rfl,
   (noResults_render_branches { path := "/search", queryPairs := [("q", "foobar")] }).2 rfl⟩

/-- Claim C4: the query extraction returns the value of the first pair whose
key exactly equals "query" (case-sensitive exact match), absent when no such
pair exists; on `query=abc&query=def` it returns "abc". -/
theorem findQuery_first_match :
    findQuery [] = none ∧
    (∀ (v : String) (rest : List (String × String)),
      findQuery (("query", v) :: rest) = some v) ∧
    (∀ (k v : String) (rest : List (String × String)), k ≠ "query" →
      findQuery ((k, v) :: rest) = findQuery rest) ∧
    (∀ pairs : List (String × String), (∀ p ∈ pairs, p.1 ≠ "query") →
      findQuery pairs = none) ∧
    findQuery [("query", "abc"), ("query", "def")] = some "abc" := by
  refine ⟨rfl, ?_, ?_, ?_, rfl⟩
  · intro v rest
    simp [findQuery]
  · intro k v rest h
    have hb : (k == "query") = false := by simpa using h
    simp [findQuery, List.find?, hb]
  · intro pairs h
    have : pairs.find? (fun p => p.1 == "query") = none := by
      rw [List.find?_eq_none]
      intro p hp
      simpa using h p hp
    simp [findQuery, this]

/-- Witness for C4: the conditional conjuncts applied at concrete inputs —
a non-matching key is skipped (case-sensitively) and a pair list with no
"query" key yields absence. -/
theorem findQuery_first_match_witness :
    findQuery [("Query", "abc")] = findQuery [] ∧
    findQuery [("Query", "abc"), ("q", "def")] = none :=
  ⟨findQuery_first_match.2.2.1 "Query" "abc" [] (by decide),
   findQuery_first_match.2.2.2.1 [("Query", "abc"), ("q", "def")] (by decide)⟩

/-- Claim C5: every resource-pool failure is normalized to an error with
status 500, uniformly (no inspection of the failure), retaining only the
opaque error value itself. -/
theorem poolError_normalization :
    ∀ e : PoolError,
      e.intoIronError = { error := e, status := .internalServerError } ∧
      e.intoIronError.status.code = 500 ∧
      ∀ e2 : PoolError, e.intoIronError.status = e2.intoIronError.status := by
  intro e
  exact ⟨rfl, rfl, fun e2 => rfl⟩

/-- The seven explicit arms of the rendering dispatch, indexed in source
order, each arm exactly as written in `src/web/error.rs`. -/
def renderArm (i : Fin 7) : Request → Response :=
  match i with
  | ⟨0, _⟩ => fun _ =>
      .errorPage
        { title := "The requested resource does not exist"
          message := some "no such resource"
          status := .notFound }
  | ⟨1, _⟩ => fun _ =>
      .errorPage
        { title := "The requested build does not exist"
          message := some "no such build"
          status := .notFound }
  | ⟨2, _⟩ => fun _ =>
      .errorPage
        { title := "The requested crate does not exist"
          message := some "no such crate"
          status := .notFound }
  | ⟨3, _⟩ => fun _ =>
      .errorPage
        { title := "The requested owner does not exist"
          message := some "no such owner"
          status := .notFound }
  | ⟨4, _⟩ => fun _ =>
      .errorPage
        { title := "The requested version does not exist"
          message := some "no such version for this crate"
          status := .notFound }
  | ⟨5, _⟩ => fun req =>
      match findQuery req.queryPairs with
      | some q =>
          .searchPage
            { title := "No crates found matching \x27" ++ q ++ "\x27"
              search_query := some q
              status := .notFound }
      | none =>
          .searchPage
            { title := "No results given for empty search query"
              status := .notFound }
  | ⟨6, _⟩ => fun _ =>
      .errorPage
        { title := "Internal server error"
          message := some "internal server error"
          status := .internalServerError }

/-- The arm of the dispatch reached by each `Nope` variant, in source order. -/
def armIdx : Nope → Fin 7
  | .ResourceNotFound => 0
  | .BuildNotFound => 1
  | .CrateNotFound => 2
  | .OwnerNotFound => 3
  | .VersionNotFound => 4
  | .NoResults => 5
  | .InternalServerError => 6

/-- Claim C6: the rendering dispatch is total over the closed seven-variant
set — every variant reaches exactly one of the seven explicit arms (distinct
variants reach distinct arms, so there is no default or fallthrough case),
and the dispatch always yields a rendered page, never a failure. -/
theorem render_total_no_fallthrough :
    (∀ (k : Nope) (req : Request), k.handle req = renderArm (armIdx k) req) ∧
    (∀ a b : Nope, armIdx a = armIdx b → a = b) ∧
    (∀ (k : Nope) (req : Request),
      (∃ p : ErrorPage, k.handle req = .errorPage p) ∨
      (∃ s : Search, k.handle req = .searchPage s)) := by
  refine ⟨?_, ?_, ?_⟩
  · intro k req
    cases k <;> rfl
  · decide
  · intro k req
    cases k
    case NoResults =>
      cases h : findQuery req.queryPairs with
      | none =>
          exact Or.inr
            ⟨{ title := "No results given for empty search query", status := .notFound },
              by simp [Nope.handle, h]⟩
      | some q =>
          exact Or.inr
            ⟨{ title := "No crates found matching \x27" ++ q ++ "\x27",
                 search_query := some q, status := .notFound },
              by simp [Nope.handle, h]⟩
    all_goals exact Or.inl ⟨_, rfl⟩

/-- Witness for C6: the dispatch factoring evaluated at a concrete variant
and request, and arm-distinctness applied at a concrete pair. -/
theorem render_total_no_fallthrough_witness :
    Nope.NoResults.handle { queryPairs := [] } = renderArm 5 { queryPairs := [] } ∧
    Nope.CrateNotFound = Nope.CrateNotFound :=
  ⟨render_total_no_fallthrough.1 .NoResults { queryPairs := [] },
   render_total_no_fallthrough.2.1 .CrateNotFound .CrateNotFound rfl⟩

/-- Claim C7: rendering is deterministic and stateless — two invocations
with the same `Nope` value and requests carrying the same query-string
pairs produce identical output; nothing else about the request (path,
fragment) influences it, and there is no hidden state to diverge on. -/
theorem render_deterministic :
    ∀ (k : Nope) (r1 r2 : Request), r1.queryPairs = r2.queryPairs →
      k.handle r1 = k.handle r2 := by
  intro k r1 r2 h
  cases k <;> simp [Nope.handle, h]

/-- Witness for C7: two requests differing in path and fragment but sharing
the query pairs render identically. -/
theorem render_deterministic_witness :
    Nope.NoResults.handle { path := "/a", queryPairs := [("query", "x")] } =
      Nope.NoResults.handle
        { path := "/b", fragmentPart := some "frag", queryPairs := [("query", "x")] } :=
  render_deterministic .NoResults
    { path := "/a", queryPairs := [("query", "x")] }
    { path := "/b", fragmentPart := some "frag", queryPairs := [("query", "x")] } rfl

/-- Claim C8: in both NoResults sub-cases the rendered search-results model
leaves every field other than title, search_query, and status at its
default value (NoResults always renders the search page, with the
defaulted remainder untouched and status 404). -/
theorem noResults_frame_defaults :
    ∀ req : Request, ∃ s : Search,
      Nope.NoResults.handle req = .searchPage s ∧
      s.rest = {} ∧ s.status = .notFound := by
  intro req
  cases h : findQuery req.queryPairs with
  | none =>
      exact ⟨{ title := "No results given for empty search query", status := .notFound },
        by simp [Nope.handle, h], rfl, rfl⟩
  | some q =>
      exact ⟨{ title := "No crates found matching \x27" ++ q ++ "\x27",
               search_query := some q, status := .notFound },
        by simp [Nope.handle, h], rfl, rfl⟩

/-- Claim C9: a request carrying a `query` parameter with an empty value
takes the query-present branch — title `No crates found matching` with two
adjacent apostrophes and search_query set to the empty string — and, in
general, the branch decision depends only on the presence of a pair with
key `"query"`, never on its value. -/
theorem noResults_empty_value_branch :
    ∀ req : Request,
      (findQuery req.queryPairs = some "" →
        Nope.NoResults.handle req =
          .searchPage { title := "No crates found matching \x27\x27",
                        search_query := some "", status := .notFound, rest := {} }) ∧
      ((∃ p ∈ req.queryPairs, p.1 = "query") →
        ∃ q : String, findQuery req.queryPairs = some q ∧
          Nope.NoResults.handle req =
            .searchPage { title := "No crates found matching \x27" ++ q ++ "\x27",
                          search_query := some q, status := .notFound, rest := {} }) := by
  intro req
  constructor
  · intro h
    simp [Nope.handle, h]
  · intro hp
    have hs : (req.queryPairs.find? (fun p => p.1 == "query")).isSome := by
      rw [List.find?_isSome]
      obtain ⟨p, hmem, hkey⟩ := hp
      exact ⟨p, hmem, by simp [hkey]⟩
    obtain ⟨pair, hfind⟩ := Option.isSome_iff_exists.mp hs
    refine ⟨pair.2, ?_, ?_⟩
    · simp [findQuery, hfind]
    · simp [Nope.handle, findQuery, hfind]

/-- Witness for C9: the empty-value branch evaluated at the concrete
request whose query string is `query=` (one pair with empty value). -/
theorem noResults_empty_value_branch_witness :
    Nope.NoResults.handle { queryPairs := [("query", "")] } =
      .searchPage { title := "No crates found matching \x27\x27",
                    search_query := some "", status := .notFound, rest := {} } :=
  (noResults_empty_value_branch { queryPairs := [("query", "")] }).1 rfl

/-- Claim C10: for every variant and every request, the status embedded by
the `Nope`-to-`IronError` conversion equals the status field of the page
model produced by rendering that variant — the two independently written
status mappings agree on all seven variants. -/
theorem status_mappings_agree :
    ∀ (k : Nope) (req : Request),
      (k.handle req).status = k.intoIronError.status ∧
      (k.handle req).status.code = k.intoIronError.status.code := by
  intro k req
  have h : (k.handle req).status = k.intoIronError.status := by
    cases k
    case NoResults =>
      cases hq : findQuery req.queryPairs with
      | none => simp [Nope.handle, hq, Response.status, Nope.intoIronError]
      | some q => simp [Nope.handle, hq, Response.status, Nope.intoIronError]
    all_goals rfl
  exact ⟨h, by rw [h]⟩

end DocsRs
